import Mathlib

/-!
Verification development for the Advisor web service (`src/main.py`).

The service is a thin FastAPI proxy: it accepts a text message over HTTP,
forwards it to an LLM completion API, and shapes the reply as JSON; it also
keeps a per-IP sliding-window rate limiter in process memory and a feedback
table with aggregate statistics.

Shallow embedding conventions:
* timestamps (`datetime.now()`) are rationals (seconds, microsecond precision
  fits in `ℚ`); subtraction and comparison mirror `datetime`/`timedelta`;
* the rate-limiter state (`request_counts`, a `defaultdict(list)`) is a total
  function `String → List ℚ` defaulting to `[]`;
* the upstream OpenAI call is an opaque collaborator modelled as an
  `Except String String` parameter: `.ok content` is the first choice's
  message content, `.error e` is any exception raised by the call;
* handlers return a `Response` (status code plus JSON body); handlers that
  touch mutable state also return the new state, and handlers that may call
  upstream also return whether they did;
* SQLite numbers are exact rationals; `round(x, 2)` is Python's
  round-half-to-even at two decimals on exact rationals;
* JSON values are the inductive `Json`; `json_loads` models the strict
  parser `json.loads` of the Python standard library (not repository code):
  objects, arrays, strings with escapes, numbers, literals, with the whole
  input consumed modulo whitespace.  Exotic float corner cases (surrogate
  pairs, overflow to infinity) are outside the model; no claim touches them.
-/

/-- JSON values as produced by `json.loads`: objects keep field order and
possible duplicates, numbers are exact rationals. -/
inductive Json where
  | null : Json
  | bool : Bool → Json
  | num : ℚ → Json
  | str : String → Json
  | arr : List Json → Json
  | obj : List (String × Json) → Json

/-- JSON insignificant whitespace (RFC 8259, as accepted by `json.loads`). -/
def isJsonWs (c : Char) : Bool :=
  c = ' ' || c = '\t' || c = '\n' || c = '\r'

/-- Drop leading JSON whitespace. -/
def skipWs : List Char → List Char
  | [] => []
  | c :: cs => if isJsonWs c then skipWs cs else c :: cs

/-- Value of a hexadecimal digit, for `\uXXXX` escapes. -/
def hexVal (c : Char) : Option Nat :=
  if '0' ≤ c && c ≤ '9' then some (c.toNat - 48)
  else if 'a' ≤ c && c ≤ 'f' then some (c.toNat - 87)
  else if 'A' ≤ c && c ≤ 'F' then some (c.toNat - 55)
  else none

/-- Body of a JSON string after the opening quote: escapes as in
`json.loads` (strict mode: unescaped control characters are rejected).
Returns the decoded string and the input after the closing quote. -/
def parseStringBody (acc : List Char) : List Char → Option (String × List Char)
  | '"' :: rest => some (String.mk acc.reverse, rest)
  | '\\' :: 'u' :: a :: b :: c :: d :: rest =>
    match hexVal a, hexVal b, hexVal c, hexVal d with
    | some ha, some hb, some hc, some hd =>
      parseStringBody (Char.ofNat (((ha * 16 + hb) * 16 + hc) * 16 + hd) :: acc) rest
    | _, _, _, _ => none
  | '\\' :: e :: rest =>
    (match e with
     | '"' => some '"'
     | '\\' => some '\\'
     | '/' => some '/'
     | 'b' => some (Char.ofNat 8)
     | 'f' => some (Char.ofNat 12)
     | 'n' => some '\n'
     | 'r' => some '\r'
     | 't' => some '\t'
     | _ => none).bind fun ch => parseStringBody (ch :: acc) rest
  | c :: rest => if c.toNat < 32 then none else parseStringBody (c :: acc) rest
  | [] => none

/-- Read a run of decimal digits, accumulating value and digit count. -/
def digitsAux (acc cnt : Nat) : List Char → Nat × Nat × List Char
  | c :: cs =>
    if c.isDigit then digitsAux (acc * 10 + (c.toNat - 48)) (cnt + 1) cs
    else (acc, cnt, c :: cs)
  | [] => (acc, cnt, [])

/-- Optional fraction part `.digits` of a JSON number. -/
def parseFrac : List Char → Option (Nat × Nat × List Char)
  | '.' :: r =>
    match digitsAux 0 0 r with
    | (_, 0, _) => none
    | (v, c, rest) => some (v, c, rest)
  | cs => some (0, 0, cs)

/-- Digits of an exponent after `e`/`E`, with optional sign. -/
def parseExpDigits (r : List Char) : Option (Int × List Char) :=
  let p := match r with
    | '+' :: s => (false, s)
    | '-' :: s => (true, s)
    | _ => (false, r)
  match digitsAux 0 0 p.2 with
  | (_, 0, _) => none
  | (v, _, rest) => some (if p.1 then -(v : Int) else (v : Int), rest)

/-- Optional exponent part of a JSON number. -/
def parseExp : List Char → Option (Int × List Char)
  | 'e' :: r => parseExpDigits r
  | 'E' :: r => parseExpDigits r
  | cs => some (0, cs)

/-- A JSON number: optional minus, integer part without leading zeros,
optional fraction, optional exponent; value as an exact rational. -/
def parseNumber (cs0 : List Char) : Option (Json × List Char) :=
  let s := match cs0 with
    | '-' :: r => (true, r)
    | _ => (false, cs0)
  match digitsAux 0 0 s.2 with
  | (_, 0, _) => none
  | (ival, icnt, cs2) =>
    if 1 < icnt && s.2.headD ' ' = '0' then none
    else
      match parseFrac cs2 with
      | none => none
      | some (fval, fcnt, cs3) =>
        match parseExp cs3 with
        | none => none
        | some (e, cs4) =>
          let mag : ℚ := ((ival : ℚ) + (fval : ℚ) / (10 : ℚ) ^ fcnt) * (10 : ℚ) ^ e
          some (.num (if s.1 then -mag else mag), cs4)

mutual

/-- A JSON value (fuel-indexed recursion; the driver supplies ample fuel). -/
def parseValue (fuel : Nat) (cs : List Char) : Option (Json × List Char) :=
  match fuel with
  | 0 => none
  | f + 1 =>
    match skipWs cs with
    | 'n' :: 'u' :: 'l' :: 'l' :: rest => some (.null, rest)
    | 't' :: 'r' :: 'u' :: 'e' :: rest => some (.bool true, rest)
    | 'f' :: 'a' :: 'l' :: 's' :: 'e' :: rest => some (.bool false, rest)
    | '"' :: rest => (parseStringBody [] rest).map fun p => (.str p.1, p.2)
    | '[' :: rest =>
      (match skipWs rest with
       | ']' :: rest2 => some (.arr [], rest2)
       | rest2 => parseArrayTail f [] rest2)
    | '\x7b' :: rest =>
      (match skipWs rest with
       | '\x7d' :: rest2 => some (.obj [], rest2)
       | rest2 => parseObjectTail f [] rest2)
    | cs2 => parseNumber cs2

/-- Comma-separated elements of a non-empty JSON array, up to `]`. -/
def parseArrayTail (fuel : Nat) (acc : List Json) (cs : List Char) :
    Option (Json × List Char) :=
  match fuel with
  | 0 => none
  | f + 1 =>
    match parseValue f cs with
    | none => none
    | some (v, rest) =>
      match skipWs rest with
      | ',' :: rest2 => parseArrayTail f (v :: acc) rest2
      | ']' :: rest2 => some (.arr (v :: acc).reverse, rest2)
      | _ => none

/-- Comma-separated `"key": value` members of a non-empty JSON object. -/
def parseObjectTail (fuel : Nat) (acc : List (String × Json)) (cs : List Char) :
    Option (Json × List Char) :=
  match fuel with
  | 0 => none
  | f + 1 =>
    match skipWs cs with
    | '"' :: rest =>
      (match parseStringBody [] rest with
       | none => none
       | some (k, rest1) =>
         match skipWs rest1 with
         | ':' :: rest2 =>
           (match parseValue f rest2 with
            | none => none
            | some (v, rest3) =>
              match skipWs rest3 with
              | ',' :: rest4 => parseObjectTail f ((k, v) :: acc) rest4
              | '\x7d' :: rest4 => some (.obj ((k, v) :: acc).reverse, rest4)
              | _ => none)
         | _ => none)
    | _ => none

end

/-- Modelled from the spec: `json.loads` of the Python standard library (the
parser used at `src/main.py:171`; its source is not part of this repository).
Strict parse of a complete JSON document: one value, with only whitespace
allowed around it; `none` models raising `json.JSONDecodeError`. -/
def json_loads (s : String) : Option Json :=
  match parseValue (2 * s.length + 8) s.data with
  | some (v, rest) => if skipWs rest = [] then some v else none
  | none => none

/-- Drop leading whitespace characters. -/
def dropLeadingWs : List Char → List Char
  | [] => []
  | c :: cs => if c.isWhitespace then dropLeadingWs cs else c :: cs

/-- Python's `str.strip()` with no argument: remove leading and trailing
whitespace (ASCII whitespace suffices for this service's inputs). -/
def pystrip (s : String) : String :=
  String.mk (dropLeadingWs (dropLeadingWs s.data).reverse).reverse

/-- Whether a JSON value is an object with a member named `k`. -/
def hasKey (j : Json) (k : String) : Bool :=
  match j with
  | .obj fs => fs.any fun p => p.1 = k
  | _ => false

/-- Member names of a JSON object (in order), `[]` for non-objects. -/
def keysOf (j : Json) : List String :=
  match j with
  | .obj fs => fs.map Prod.fst
  | _ => []

/-- An HTTP response: status code and JSON body. -/
structure Response where
  status : Nat
  body : Json

/-! ## Rate limiter (`src/main.py:41`-`57`) -/

/-- `request_counts = defaultdict(list)`: per-client-IP list of request
timestamps; an unseen key reads as `[]`. -/
def RateState := String → List ℚ

/-- `RATE_LIMIT_REQUESTS = 10`. -/
def RATE_LIMIT_REQUESTS : Nat := 10

/-- `RATE_LIMIT_WINDOW = 60` (seconds). -/
def RATE_LIMIT_WINDOW : ℚ := 60

/-- `request_counts[client_ip] = l` on the dictionary. -/
def updateState (st : RateState) (client_ip : String) (l : List ℚ) : RateState :=
  fun c => if c = client_ip then l else st c

/-- The process-start state: no client has any recorded request. -/
def emptyRateState : RateState := fun _ => []

/-- `check_rate_limit(client_ip)` of `src/main.py:45`-`57`, with the call's
`datetime.now()` passed explicitly: keep only timestamps with
`now - req_time < timedelta(seconds=RATE_LIMIT_WINDOW)`, refuse when at
least `RATE_LIMIT_REQUESTS` remain, otherwise append `now`.  Returns the
boolean result and the updated `request_counts`. -/
def check_rate_limit (st : RateState) (client_ip : String) (now : ℚ) :
    Bool × RateState :=
  if RATE_LIMIT_REQUESTS ≤
      ((st client_ip).filter fun t => decide (now - t < RATE_LIMIT_WINDOW)).length then
    (false, updateState st client_ip
      ((st client_ip).filter fun t => decide (now - t < RATE_LIMIT_WINDOW)))
  else
    (true, updateState st client_ip
      (((st client_ip).filter fun t => decide (now - t < RATE_LIMIT_WINDOW)) ++ [now]))

/-- Run a sequence of `check_rate_limit` calls for one client at the given
timestamps, collecting the returned booleans. -/
def runCalls (st : RateState) (c : String) : List ℚ → List Bool × RateState
  | [] => ([], st)
  | now :: rest =>
    let r := check_rate_limit st c now
    let rr := runCalls r.2 c rest
    (r.1 :: rr.1, rr.2)

/-! ## LLM-backed endpoints (`src/main.py:123`-`182`) -/

/-- `POST /chat` (`src/main.py:123`-`144`), given the request's `message`
value and the outcome of the upstream call.  Returns the response and
whether the upstream API was invoked. -/
def chat_endpoint (msg : String) (upstream : Except String String) :
    Response × Bool :=
  let user_message := pystrip msg
  if user_message = "" then
    (⟨400, .obj [("error", .str "Empty message")]⟩, false)
  else
    match upstream with
    | .ok content =>
      (⟨200, .obj [("reply", .str (pystrip content))]⟩, true)
    | .error e =>
      (⟨500, .obj [("error", .str ("OpenAI API error: " ++ e))]⟩, true)

/-- The structured-response normalization of `src/main.py:170`-`179`:
`json.loads` the reply and pass the parsed value through unchanged; on
`JSONDecodeError` synthesize the fallback object with the raw text in
`advice` and fixed placeholders in the other three fields. -/
def normalize_response (response_text : String) : Json :=
  match json_loads response_text with
  | some v => v
  | none => .obj [
      ("advice", .str response_text),
      ("reasoning_path", .str "Ответ не был структурирован должным образом"),
      ("ethical_check", .str "Требуется дополнительная проверка"),
      ("self_reflection", .str "Система не смогла предоставить структурированный анализ")]

/-- Outcome of one `POST /ask` request: the HTTP response, the rate-limiter
state afterwards, and whether the upstream API was invoked. -/
structure AskOutcome where
  resp : Response
  state : RateState
  calledUpstream : Bool

/-- `POST /ask` (`src/main.py:146`-`182`): rate-limit first (a refusal
raises `HTTPException(429)`, which FastAPI renders as a JSON body with a
`detail` member), then reject empty messages with 400, then call upstream
and normalize the reply; upstream exceptions become 500 with an `error`
member. -/
def ask_advisor (st : RateState) (client_ip : String) (now : ℚ) (msg : String)
    (upstream : Except String String) : AskOutcome :=
  let r := check_rate_limit st client_ip now
  if r.1 = false then
    ⟨⟨429, .obj [("detail", .str "Too many requests. Please try again later.")]⟩, r.2, false⟩
  else
    let user_message := pystrip msg
    if user_message = "" then
      ⟨⟨400, .obj [("error", .str "Empty message")]⟩, r.2, false⟩
    else
      match upstream with
      | .ok content =>
        ⟨⟨200, normalize_response (pystrip content)⟩, r.2, true⟩
      | .error e =>
        ⟨⟨500, .obj [("error", .str ("OpenAI API error: " ++ e))]⟩, r.2, true⟩

/-! ## Feedback store (`src/main.py:70`-`86`, `184`-`226`) -/

/-- A row of the `feedback` table.  `rating` is a nullable INTEGER column;
`id` and `timestamp` are server-assigned and unused by the statistics. -/
structure FeedbackRow where
  user_message : String
  advisor_response : String
  rating : Option Int
  comment : String

/-- The `feedback` table as the ordered list of its rows. -/
abbrev Store := List FeedbackRow

/-- The `FeedbackData` pydantic model: all fields required except
`comment`, which defaults to `""`. -/
structure FeedbackData where
  user_message : String
  advisor_response : String
  rating : Int
  comment : String := ""

/-- `POST /feedback` (`src/main.py:184`-`199`): insert the row and answer
with a success body; any database exception (modelled by `dbErr`) becomes
500 with an `error` member and leaves the table unchanged. -/
def submit_feedback (store : Store) (fb : FeedbackData) (dbErr : Option String) :
    Response × Store :=
  match dbErr with
  | some e => (⟨500, .obj [("error", .str ("Database error: " ++ e))]⟩, store)
  | none =>
    (⟨200, .obj [("status", .str "success"), ("message", .str "Спасибо за обратную связь!")]⟩,
     store ++ [⟨fb.user_message, fb.advisor_response, some fb.rating, fb.comment⟩])

/-- Floor of a rational, via floor division of numerator by denominator. -/
def qfloor (x : ℚ) : Int := Int.fdiv x.num x.den

/-- Round to the nearest integer, ties to even — Python's `round` on exact
values. -/
def roundHalfEven (x : ℚ) : Int :=
  let f := qfloor x
  let r := x - (f : ℚ)
  if r < 1 / 2 then f
  else if 1 / 2 < r then f + 1
  else if f % 2 = 0 then f else f + 1

/-- Python's `round(x, 2)` on exact values. -/
def pyround2 (x : ℚ) : ℚ := (roundHalfEven (x * 100) : ℚ) / 100

/-- `GET /stats` (`src/main.py:201`-`226`): row count, `AVG(rating)` over
non-null ratings (`NULL`, i.e. no rows, coerced to 0 by `or 0`), count of
rows with `rating >= 4`, and the satisfaction rate guarded against an
empty table.  A database exception becomes 500 with an `error` member. -/
def get_stats (store : Store) (dbErr : Option String) : Response :=
  match dbErr with
  | some e => ⟨500, .obj [("error", .str ("Database error: " ++ e))]⟩
  | none =>
    let total := store.length
    let ratings := store.filterMap FeedbackRow.rating
    let avg : ℚ := if ratings.length = 0 then 0 else (ratings.sum : ℚ) / ratings.length
    let positive := (store.filter fun r =>
      match r.rating with
      | some n => decide (4 ≤ n)
      | none => false).length
    ⟨200, .obj [
      ("total_feedback", .num total),
      ("average_rating", .num (pyround2 avg)),
      ("positive_feedback", .num positive),
      ("satisfaction_rate", .num (if 0 < total then pyround2 ((positive : ℚ) / total * 100) else 0))]⟩

/-! ## Rate limiter: claims C2, C9, C3 -/

/-- A filter over a window keeps a list whose members all lie in the
window. -/
lemma filter_window_eq_self (now : ℚ) (l : List ℚ)
    (h : ∀ t ∈ l, now - t < RATE_LIMIT_WINDOW) :
    (l.filter fun t => decide (now - t < RATE_LIMIT_WINDOW)) = l :=
  List.filter_eq_self.mpr fun a ha => decide_eq_true (h a ha)

/-- C2: on each `check_rate_limit` call, entries outside the 60-second
window are discarded; with at least 10 remaining the call returns `false`
and records nothing, otherwise it appends `now` and returns `true`; other
clients' entries are untouched. -/
theorem check_rate_limit_correct (st : RateState) (c : String) (now : ℚ) :
    ((check_rate_limit st c now).1 = false ↔
      RATE_LIMIT_REQUESTS ≤
        ((st c).filter fun t => decide (now - t < RATE_LIMIT_WINDOW)).length) ∧
    ((check_rate_limit st c now).1 = false →
      (check_rate_limit st c now).2 c =
        (st c).filter fun t => decide (now - t < RATE_LIMIT_WINDOW)) ∧
    ((check_rate_limit st c now).1 = true →
      (check_rate_limit st c now).2 c =
        ((st c).filter fun t => decide (now - t < RATE_LIMIT_WINDOW)) ++ [now]) ∧
    ∀ c2, c2 ≠ c → (check_rate_limit st c now).2 c2 = st c2 := by
  unfold check_rate_limit updateState
  split
  next h => refine ⟨by simpa using h, fun _ => by simp, by simp, fun c2 hc2 => by simp [hc2]⟩
  next h => refine ⟨by simpa using h, by simp, fun _ => by simp, fun c2 hc2 => by simp [hc2]⟩

/-- Closed instance of `check_rate_limit_correct`: a fresh client's first
call is admitted and recorded. -/
theorem check_rate_limit_correct_witness :
    (check_rate_limit emptyRateState "a" 0).1 = true ∧
    (check_rate_limit emptyRateState "a" 0).2 "a" = [(0 : ℚ)] :=
  ⟨rfl, by
    have h := (check_rate_limit_correct emptyRateState "a" 0).2.2.1 rfl
    simpa [emptyRateState] using h⟩

/-- C9: one `check_rate_limit` call keeps the invariant: if the client's
recorded timestamps numbered at most 10 and were not in the future, then
afterwards they still number at most 10 and all lie within the last 60
seconds of the call's `now`. -/
theorem check_rate_limit_invariant (st : RateState) (c : String) (now : ℚ)
    (hlen : (st c).length ≤ RATE_LIMIT_REQUESTS)
    (hpast : ∀ t ∈ st c, t ≤ now) :
    ((check_rate_limit st c now).2 c).length ≤ RATE_LIMIT_REQUESTS ∧
    ∀ t ∈ (check_rate_limit st c now).2 c,
      now - RATE_LIMIT_WINDOW < t ∧ t ≤ now := by
  have hwin : ∀ t ∈ (st c).filter fun t => decide (now - t < RATE_LIMIT_WINDOW),
      now - RATE_LIMIT_WINDOW < t ∧ t ≤ now := by
    intro t ht
    have hmem := List.mem_filter.mp ht
    have h1 : now - t < RATE_LIMIT_WINDOW := of_decide_eq_true hmem.2
    exact ⟨by linarith, hpast t hmem.1⟩
  unfold check_rate_limit updateState
  split
  next h =>
    exact ⟨by simpa using le_trans (List.length_filter_le _ _) hlen, by simpa using hwin⟩
  next h =>
    have hlt : ((st c).filter fun t => decide (now - t < RATE_LIMIT_WINDOW)).length <
        RATE_LIMIT_REQUESTS := Nat.lt_of_not_le h
    refine ⟨?_, ?_⟩
    · simpa using hlt
    · intro t ht
      have ht2 : (t ∈ st c ∧ now - t < RATE_LIMIT_WINDOW) ∨ t = now := by simpa using ht
      rcases ht2 with ⟨hmem, hl2⟩ | heq
      · exact ⟨by linarith, hpast t hmem⟩
      · subst heq
        have hpos : (0 : ℚ) < RATE_LIMIT_WINDOW := by norm_num [RATE_LIMIT_WINDOW]
        exact ⟨by linarith, le_refl t⟩

/-- Closed instance of `check_rate_limit_invariant` at a fresh client. -/
theorem check_rate_limit_invariant_witness :
    ((check_rate_limit emptyRateState "a" 0).2 "a").length ≤ RATE_LIMIT_REQUESTS ∧
    ∀ t ∈ (check_rate_limit emptyRateState "a" 0).2 "a",
      (0 : ℚ) - RATE_LIMIT_WINDOW < t ∧ t ≤ 0 :=
  check_rate_limit_invariant emptyRateState "a" 0
    (by simp [emptyRateState]) (by simp [emptyRateState])

/-- While a client's quota is not exhausted and all calls fall in one
window, every call is admitted and the recorded list grows by one. -/
lemma runCalls_all_admitted (c : String) (rest : List ℚ) :
    ∀ (pre : List ℚ) (st : RateState), st c = pre →
    pre.length + rest.length ≤ RATE_LIMIT_REQUESTS →
    (∀ a ∈ pre, ∀ b ∈ rest, b - a < RATE_LIMIT_WINDOW) →
    (∀ a ∈ rest, ∀ b ∈ rest, b - a < RATE_LIMIT_WINDOW) →
    (runCalls st c rest).1 = List.replicate rest.length true ∧
    (runCalls st c rest).2 c = pre ++ rest := by
  induction rest with
  | nil => intro pre st hst _ _ _; simp [runCalls, hst]
  | cons now rest ih =>
    intro pre st hst hlen hpre hrest
    have hkeep : ((st c).filter fun t => decide (now - t < RATE_LIMIT_WINDOW)) = pre := by
      rw [hst]
      exact filter_window_eq_self now pre fun a ha => hpre a ha now (List.mem_cons_self now rest)
    have hlt : ¬ RATE_LIMIT_REQUESTS ≤ pre.length := by
      simp only [List.length_cons] at hlen; omega
    have hstep : check_rate_limit st c now = (true, updateState st c (pre ++ [now])) := by
      unfold check_rate_limit
      rw [hkeep]
      simp [hlt]
    have hst' : (updateState st c (pre ++ [now])) c = pre ++ [now] := by simp [updateState]
    have ihres := ih (pre ++ [now]) (updateState st c (pre ++ [now])) hst'
      (by simp only [List.length_cons] at hlen; simp only [List.length_append]; simp; omega)
      (by
        intro a ha b hb
        rcases List.mem_append.mp ha with h | h
        · exact hpre a h b (List.mem_cons_of_mem now hb)
        · rw [List.mem_singleton.mp h]
          exact hrest now (List.mem_cons_self now rest) b (List.mem_cons_of_mem now hb))
      (fun a ha b hb => hrest a (List.mem_cons_of_mem now ha) b (List.mem_cons_of_mem now hb))
    refine ⟨?_, ?_⟩
    · simp only [runCalls, hstep, ihres.1, List.length_cons, List.replicate_succ]
    · simp only [runCalls, hstep, ihres.2, List.append_assoc, List.singleton_append]

/-- `runCalls` distributes over list append. -/
lemma runCalls_append (st : RateState) (c : String) (l1 l2 : List ℚ) :
    runCalls st c (l1 ++ l2) =
      ((runCalls st c l1).1 ++ (runCalls (runCalls st c l1).2 c l2).1,
       (runCalls (runCalls st c l1).2 c l2).2) := by
  induction l1 generalizing st with
  | nil => simp [runCalls]
  | cons a l ih => simp [runCalls, ih]

/-- C3: a client with no recorded history making 11 calls that all fall
within one 60-second window is admitted on the first 10 calls and rejected
on the 11th. -/
theorem rate_limit_eleventh_rejected (st : RateState) (c : String)
    (times : List ℚ) (h11 : times.length = 11)
    (hwin : ∀ a ∈ times, ∀ b ∈ times, a - b < RATE_LIMIT_WINDOW)
    (hfresh : st c = []) :
    (runCalls st c times).1 = List.replicate 10 true ++ [false] := by
  have hne : times ≠ [] := by intro h; rw [h] at h11; simp at h11
  obtain ⟨l, t, heq⟩ : ∃ l t, times = l ++ [t] :=
    ⟨times.dropLast, times.getLast hne, (List.dropLast_append_getLast hne).symm⟩
  subst heq
  have hl : l.length = 10 := by
    simp only [List.length_append, List.length_singleton] at h11; omega
  have hmeml : ∀ a ∈ l, a ∈ l ++ [t] := fun a ha => List.mem_append_left _ ha
  have hmemt : t ∈ l ++ [t] := List.mem_append_right _ (List.mem_singleton_self t)
  have h10 := runCalls_all_admitted c l [] st hfresh
    (by simp [hl, RATE_LIMIT_REQUESTS])
    (by intro a ha; simp at ha)
    (fun a ha b hb => hwin b (hmeml b hb) a (hmeml a ha))
  rw [runCalls_append, h10.1, hl]
  have hkeep : (((runCalls st c l).2 c).filter
      fun x => decide (t - x < RATE_LIMIT_WINDOW)) = l := by
    rw [h10.2, List.nil_append]
    exact filter_window_eq_self t l fun a ha => hwin t hmemt a (hmeml a ha)
  have hrej : check_rate_limit (runCalls st c l).2 c t =
      (false, updateState (runCalls st c l).2 c l) := by
    unfold check_rate_limit
    rw [hkeep]
    have hge : RATE_LIMIT_REQUESTS ≤ l.length := by simp [hl, RATE_LIMIT_REQUESTS]
    simp [hge]
  simp [runCalls, hrej]

/-- Closed instance of `rate_limit_eleventh_rejected`: 11 simultaneous
calls by one client. -/
theorem rate_limit_eleventh_rejected_witness :
    (runCalls emptyRateState "a" (List.replicate 11 (0 : ℚ))).1 =
      List.replicate 10 true ++ [false] :=
  rate_limit_eleventh_rejected emptyRateState "a" _ (by simp)
    (fun a ha b hb => by
      rw [List.eq_of_mem_replicate ha, List.eq_of_mem_replicate hb]
      norm_num [RATE_LIMIT_WINDOW])
    rfl

/-! ## Endpoint helper lemmas -/

/-- `check_rate_limit` refuses when the in-window count is at the limit. -/
lemma check_rate_limit_eq_reject (st : RateState) (c : String) (now : ℚ)
    (h : RATE_LIMIT_REQUESTS ≤
      ((st c).filter fun t => decide (now - t < RATE_LIMIT_WINDOW)).length) :
    check_rate_limit st c now =
      (false, updateState st c
        ((st c).filter fun t => decide (now - t < RATE_LIMIT_WINDOW))) := by
  unfold check_rate_limit
  simp [h]

/-- `check_rate_limit` admits and records when under the limit. -/
lemma check_rate_limit_eq_admit (st : RateState) (c : String) (now : ℚ)
    (h : ¬ RATE_LIMIT_REQUESTS ≤
      ((st c).filter fun t => decide (now - t < RATE_LIMIT_WINDOW)).length) :
    check_rate_limit st c now =
      (true, updateState st c
        (((st c).filter fun t => decide (now - t < RATE_LIMIT_WINDOW)) ++ [now])) := by
  unfold check_rate_limit
  simp [h]

/-- A rate-limiter state in which every client has just exhausted its
quota: ten requests recorded at time 0. -/
def fullState : RateState := fun _ => List.replicate 10 0

/-- At time 0 a call on `fullState` is refused. -/
lemma fullState_rejects (c : String) :
    check_rate_limit fullState c 0 =
      (false, updateState fullState c (List.replicate 10 0)) := by
  have hkeep : ((fullState c).filter fun t => decide ((0 : ℚ) - t < RATE_LIMIT_WINDOW)) =
      List.replicate 10 0 := by
    refine filter_window_eq_self 0 _ fun a ha => ?_
    rw [List.eq_of_mem_replicate (show a ∈ List.replicate 10 (0 : ℚ) from ha)]
    norm_num [RATE_LIMIT_WINDOW]
  have h := check_rate_limit_eq_reject fullState c 0 (by rw [hkeep]; simp [RATE_LIMIT_REQUESTS])
  rwa [hkeep] at h

/-! ## Structured-response normalizer: claim C1 -/

/-- C1 fails as stated: when the model's reply is the valid JSON text
`"\x7b\x7d"` (an empty object), `POST /ask` returns it unchanged, so the
caller receives an object with no fields at all, not the four-field
schema. -/
theorem normalize_shape_counterexample :
    (ask_advisor emptyRateState "a" 0 "hello" (.ok "\x7b\x7d")).resp.status = 200 ∧
    (ask_advisor emptyRateState "a" 0 "hello" (.ok "\x7b\x7d")).resp.body = Json.obj [] ∧
    hasKey (Json.obj []) "advice" = false ∧
    keysOf (Json.obj []) = [] :=
  ⟨rfl, rfl, rfl, rfl⟩

/-- C1 (amended): the normalizer is total, and on JSON parse failure it
returns the fallback object with exactly the four fields, the raw text in
`advice` and fixed placeholders elsewhere; but on parse success the parsed
value is passed through unchanged, with no guarantee of the four-field
shape. -/
theorem normalize_total_shape (s : String) :
    (json_loads s = none →
      normalize_response s = Json.obj [
        ("advice", .str s),
        ("reasoning_path", .str "Ответ не был структурирован должным образом"),
        ("ethical_check", .str "Требуется дополнительная проверка"),
        ("self_reflection", .str "Система не смогла предоставить структурированный анализ")] ∧
      keysOf (normalize_response s) =
        ["advice", "reasoning_path", "ethical_check", "self_reflection"]) ∧
    ∀ v, json_loads s = some v → normalize_response s = v := by
  constructor
  · intro h
    constructor <;> simp [normalize_response, h, keysOf]
  · intro v h
    simp [normalize_response, h]

/-- Closed instance of `normalize_total_shape` on a non-JSON reply. -/
theorem normalize_total_shape_witness :
    json_loads "not json" = none ∧
    keysOf (normalize_response "not json") =
      ["advice", "reasoning_path", "ethical_check", "self_reflection"] :=
  ⟨rfl, ((normalize_total_shape "not json").1 rfl).2⟩

/-! ## Empty-message handling: claims C4, C10 -/

/-- C4 fails as stated: an empty message on `POST /ask` sent by a client
whose quota is exhausted is answered with 429, not 400. -/
theorem empty_message_400_counterexample :
    (ask_advisor fullState "a" 0 "" (.ok "x")).resp.status = 429 ∧
    (ask_advisor fullState "a" 0 "" (.ok "x")).resp.status ≠ 400 := by
  have h : (ask_advisor fullState "a" 0 "" (.ok "x")).resp.status = 429 := by
    simp [ask_advisor, fullState_rejects]
  exact ⟨h, by rw [h]; decide⟩

/-- C4 (amended): a request whose message strips to empty never reaches
the upstream gateway; `POST /chat` answers 400, and `POST /ask` answers
400 when the client's quota allows the request and 429 when it is already
exhausted. -/
theorem empty_message_no_upstream (st : RateState) (c : String) (now : ℚ)
    (msg : String) (up : Except String String) (h : pystrip msg = "") :
    (chat_endpoint msg up).2 = false ∧
    (chat_endpoint msg up).1.status = 400 ∧
    (ask_advisor st c now msg up).calledUpstream = false ∧
    (ask_advisor st c now msg up).resp.status =
      (if RATE_LIMIT_REQUESTS ≤
          ((st c).filter fun t => decide (now - t < RATE_LIMIT_WINDOW)).length
       then 429 else 400) := by
  refine ⟨by simp [chat_endpoint, h], by simp [chat_endpoint, h], ?_, ?_⟩ <;>
  · by_cases hq : RATE_LIMIT_REQUESTS ≤
        ((st c).filter fun t => decide (now - t < RATE_LIMIT_WINDOW)).length
    · simp [ask_advisor, check_rate_limit_eq_reject st c now hq, hq]
    · simp [ask_advisor, check_rate_limit_eq_admit st c now hq, hq, h]

/-- Closed instance of `empty_message_no_upstream` for a fresh client. -/
theorem empty_message_no_upstream_witness :
    (chat_endpoint " " (.ok "x")).2 = false ∧
    (chat_endpoint " " (.ok "x")).1.status = 400 ∧
    (ask_advisor emptyRateState "a" 0 " " (.ok "x")).calledUpstream = false ∧
    (ask_advisor emptyRateState "a" 0 " " (.ok "x")).resp.status =
      (if RATE_LIMIT_REQUESTS ≤
          ((emptyRateState "a").filter fun t => decide ((0 : ℚ) - t < RATE_LIMIT_WINDOW)).length
       then 429 else 400) :=
  empty_message_no_upstream emptyRateState "a" 0 " " (.ok "x") rfl

/-- C10: on `POST /ask` the rate limit is checked, and the request
recorded, before the message is validated: with the quota exhausted an
empty message gets 429; otherwise it gets 400 and still consumes one unit
(the call's `now` is appended to the client's window). -/
theorem ask_rate_limit_before_validation (st : RateState) (c : String)
    (now : ℚ) (msg : String) (up : Except String String)
    (h : pystrip msg = "") :
    (RATE_LIMIT_REQUESTS ≤
        ((st c).filter fun t => decide (now - t < RATE_LIMIT_WINDOW)).length →
      (ask_advisor st c now msg up).resp.status = 429) ∧
    (¬ RATE_LIMIT_REQUESTS ≤
        ((st c).filter fun t => decide (now - t < RATE_LIMIT_WINDOW)).length →
      (ask_advisor st c now msg up).resp.status = 400 ∧
      (ask_advisor st c now msg up).state c =
        ((st c).filter fun t => decide (now - t < RATE_LIMIT_WINDOW)) ++ [now]) := by
  constructor
  · intro hq
    simp [ask_advisor, check_rate_limit_eq_reject st c now hq]
  · intro hq
    simp [ask_advisor, check_rate_limit_eq_admit st c now hq, h, updateState]

/-- Closed instance of `ask_rate_limit_before_validation`: a fresh client
sending an empty message gets 400 but its quota is debited. -/
theorem ask_rate_limit_before_validation_witness :
    (ask_advisor emptyRateState "a" 0 "" (.ok "x")).resp.status = 400 ∧
    (ask_advisor emptyRateState "a" 0 "" (.ok "x")).state "a" =
      ((emptyRateState "a").filter fun t => decide ((0 : ℚ) - t < RATE_LIMIT_WINDOW)) ++ [0] :=
  (ask_rate_limit_before_validation emptyRateState "a" 0 "" (.ok "x") rfl).2
    (by simp [emptyRateState, RATE_LIMIT_REQUESTS])

/-! ## Error bodies: claim C5 -/

/-- C5 fails as stated: the rate-limit rejection on `POST /ask` is an
error response whose JSON body has a `detail` member but no `error`
member. -/
theorem error_field_counterexample :
    (ask_advisor fullState "a" 0 "hello" (.ok "x")).resp.status = 429 ∧
    hasKey (ask_advisor fullState "a" 0 "hello" (.ok "x")).resp.body "error" = false ∧
    hasKey (ask_advisor fullState "a" 0 "hello" (.ok "x")).resp.body "detail" = true := by
  refine ⟨?_, ?_, ?_⟩ <;> simp [ask_advisor, fullState_rejects, hasKey]

/-- C5 (amended): every error response (status ≥ 400) produced by the
modelled handlers carries a JSON body; validation, upstream and storage
errors carry an `error` member, but the rate-limit rejection is a 429
whose body carries `detail` instead. -/
theorem handler_errors_json (msg : String) (up : Except String String)
    (st : RateState) (c : String) (now : ℚ) (store : Store)
    (fb : FeedbackData) (dbErr : Option String) :
    (400 ≤ (chat_endpoint msg up).1.status →
      hasKey (chat_endpoint msg up).1.body "error" = true) ∧
    (400 ≤ (ask_advisor st c now msg up).resp.status →
      hasKey (ask_advisor st c now msg up).resp.body "error" = true ∨
      ((ask_advisor st c now msg up).resp.status = 429 ∧
       hasKey (ask_advisor st c now msg up).resp.body "detail" = true)) ∧
    (400 ≤ (submit_feedback store fb dbErr).1.status →
      hasKey (submit_feedback store fb dbErr).1.body "error" = true) ∧
    (400 ≤ (get_stats store dbErr).status →
      hasKey (get_stats store dbErr).body "error" = true) := by
  refine ⟨?_, ?_, ?_, ?_⟩
  · by_cases hm : pystrip msg = ""
    · simp [chat_endpoint, hm, hasKey]
    · cases up <;> simp [chat_endpoint, hm, hasKey]
  · by_cases hq : RATE_LIMIT_REQUESTS ≤
        ((st c).filter fun t => decide (now - t < RATE_LIMIT_WINDOW)).length
    · simp [ask_advisor, check_rate_limit_eq_reject st c now hq, hasKey]
    · by_cases hm : pystrip msg = ""
      · simp [ask_advisor, check_rate_limit_eq_admit st c now hq, hm, hasKey]
      · cases up <;>
          simp [ask_advisor, check_rate_limit_eq_admit st c now hq, hm, hasKey]
  · cases dbErr <;> simp [submit_feedback, hasKey]
  · cases dbErr <;> simp [get_stats, hasKey]

/-- Closed instance of `handler_errors_json`: the storage-error body of
`POST /feedback` carries an `error` member. -/
theorem handler_errors_json_witness :
    hasKey (submit_feedback [] ⟨"x", "y", 5, ""⟩ (some "boom")).1.body "error" = true :=
  (handler_errors_json "m" (.ok "x") emptyRateState "a" 0 [] ⟨"x", "y", 5, ""⟩
    (some "boom")).2.2.1 (by decide)

/-! ## LLM gateway via `POST /chat`: claim C8 -/

/-- C8: with a non-empty message, `POST /chat` answers 200 with the
trimmed text of the first choice under `reply`; any upstream exception is
answered with 500 and a body carrying the upstream error description. -/
theorem chat_gateway_result (msg : String) (up : Except String String)
    (h : pystrip msg ≠ "") :
    (∀ content, up = .ok content →
      chat_endpoint msg up =
        (⟨200, .obj [("reply", .str (pystrip content))]⟩, true)) ∧
    (∀ e, up = .error e →
      chat_endpoint msg up =
        (⟨500, .obj [("error", .str ("OpenAI API error: " ++ e))]⟩, true)) := by
  constructor <;> rintro x rfl <;> simp [chat_endpoint, h]

/-- Closed instance of `chat_gateway_result` on a successful upstream
call. -/
theorem chat_gateway_result_witness :
    chat_endpoint "hi" (.ok " ok ") =
      (⟨200, .obj [("reply", .str (pystrip " ok "))]⟩, true) :=
  (chat_gateway_result "hi" (.ok " ok ") (by decide)).1 " ok " rfl

/-! ## Feedback statistics: claims C6, C7 -/

/-- C6: `GET /stats` on an empty feedback store answers 200 with
`satisfaction_rate = 0` (and zero counts), not a division error. -/
theorem stats_empty_store :
    get_stats [] none =
      ⟨200, Json.obj [("total_feedback", .num 0), ("average_rating", .num 0),
        ("positive_feedback", .num 0), ("satisfaction_rate", .num 0)]⟩ := by
  norm_num [get_stats, pyround2, roundHalfEven, qfloor]

/-- C7: inserting one rating-5 feedback row into an empty store and then
calling `GET /stats` reports one row, average 5, one positive row and a
100 percent satisfaction rate. -/
theorem stats_after_one_feedback :
    get_stats (submit_feedback [] ⟨"x", "y", 5, ""⟩ none).2 none =
      ⟨200, Json.obj [("total_feedback", .num 1), ("average_rating", .num 5),
        ("positive_feedback", .num 1), ("satisfaction_rate", .num 100)]⟩ := by
  norm_num [get_stats, submit_feedback, pyround2, roundHalfEven, qfloor,
    List.filter, List.filterMap]
